import Mathlib

/-!
Verification of the etphonehome (Reach) fleet-management control plane against
its natural-language specification.  Python source is shallowly embedded:
pure logic becomes Lean functions, filesystem / subprocess / socket effects
become explicit parameters or state values, Python exceptions become
`Except` / dedicated error inductives.
-/

set_option maxHeartbeats 1000000

namespace EtPhoneHome

/-! ## JSON-like values

Request `params` and the handler results relevant to the claims are Python
dicts whose values are scalars (strings, ints, bools, `None`).  `Obj` is the
shallow embedding of such a dict as an association list of fields. -/

inductive Scalar where
  | sNull
  | sBool (b : Bool)
  | sInt (n : Int)
  | sStr (s : String)
  deriving Repr, DecidableEq, Inhabited

instance {ε α : Type} [DecidableEq ε] [DecidableEq α] : DecidableEq (Except ε α) :=
  fun a b =>
    match a, b with
    | .error e, .error e' =>
        if h : e = e' then .isTrue (by rw [h]) else .isFalse (by simp [h])
    | .ok v, .ok v' =>
        if h : v = v' then .isTrue (by rw [h]) else .isFalse (by simp [h])
    | .error _, .ok _ => .isFalse (by simp)
    | .ok _, .error _ => .isFalse (by simp)

/-- A Python dict with scalar values. -/
def Obj : Type := List (String × Scalar)

instance : DecidableEq Obj := by
  unfold Obj
  infer_instance

/-- `d.get(k)` on an association-list object: first binding wins. -/
def lookupField (fields : Obj) (k : String) : Option Scalar :=
  match fields with
  | [] => none
  | (k', v) :: rest => if k' = k then some v else lookupField rest k

/-! ## Path Policy (C1)

Embeds `Agent._validate_path` (src/client/agent.py lines 293-309) and
`ClientSFTPInterface._validate_path` (src/client/sftp_server.py lines 152-183);
the two bodies are character-identical.

A resolved absolute path is modelled as its list of components.  The ambient
filesystem's `Path(s).resolve()` (absolute + symlink resolution) is abstracted
as a function `resolve : String → List String`; `resolved.relative_to(base)`
succeeds exactly when `base`'s components are a prefix of `resolved`'s
components (equality included).  The Python loop tries each allow-list entry
and breaks at the first success, which is `List.any`. -/

def validate_path (resolve : String → List String)
    (allowed_paths : Option (List String)) (path : String) :
    Except String (List String) :=
  let resolved := resolve path
  match allowed_paths with
  | none => .ok resolved
  | some entries =>
      if entries.any (fun a => (resolve a).isPrefixOf resolved) then
        .ok resolved
      else
        .error ("Path not in allowed list: " ++ path)

/-! ## HTTP bearer-token authentication middleware (C2)

Embeds `AuthMiddleware` (src/server/http_server.py lines 155-214).  An ASGI
scope is abstracted to its type (`http` or `websocket`), its path, the value
of the `authorization` header (absent = `None`), and the parsed `token=`
query parameter (absent query string or absent key = `None`). -/

inductive ScopeType where
  | http
  | websocket
  deriving Repr, DecidableEq

inductive AuthDecision where
  | pass
  | reject401
  | close4001
  deriving Repr, DecidableEq

/-- `AuthMiddleware.PUBLIC_PATHS`. -/
def PUBLIC_PATHS : List String := ["/health", "/clients", "/internal/register", "/", "/client"]

/-- The literal tuple in `path.startswith(("/static/", "/_app/", "/icons/", "/logos/"))`. -/
def STATIC_PREFIXES : List String := ["/static/", "/_app/", "/icons/", "/logos/"]

/-- Python's `str.startswith` over the character sequence. -/
def str_starts_with (p s : String) : Bool :=
  p.data.isPrefixOf s.data

/-- Python's character slice `s[n:]`. -/
def str_drop (s : String) (n : Nat) : String :=
  ⟨s.data.drop n⟩

/-- `AuthMiddleware._is_public_path`: membership in `PUBLIC_PATHS` or one of
the static-asset prefixes. -/
def is_public_path (path : String) : Bool :=
  PUBLIC_PATHS.any (fun q => q == path) || STATIC_PREFIXES.any (fun p => str_starts_with p path)

/-- `AuthMiddleware._check_auth`: the `authorization` header passes when it
starts with `"Bearer "` and the rest (`auth[7:]`) equals the configured key;
otherwise the `token=` query parameter must equal the key.  (`none == none`
mirrors Python's `None == None`, but enforcement is gated on a truthy key
anyway.) -/
def check_auth (api_key : Option String)
    (auth_header : Option String) (token_param : Option String) : Bool :=
  let auth := auth_header.getD ""
  (str_starts_with "Bearer " auth && some (str_drop auth 7) == api_key)
    || token_param == api_key

/-- `AuthMiddleware.__call__`: HTTP requests to non-public paths without valid
credentials get a 401 response; unauthenticated WebSocket connects are closed
with code 4001 (public paths are *not* exempted on the WebSocket branch).
Enforcement only happens when the configured key is truthy (non-`None`,
non-empty). -/
def auth_middleware (api_key : Option String) (scope_type : ScopeType) (path : String)
    (auth_header : Option String) (token_param : Option String) : AuthDecision :=
  let truthy : Bool := match api_key with | some k => k ≠ "" | none => false
  match scope_type with
  | .http =>
      if truthy && !is_public_path path && !check_auth api_key auth_header token_param then
        .reject401
      else
        .pass
  | .websocket =>
      if truthy && !check_auth api_key auth_header token_param then
        .close4001
      else
        .pass

/-! ## Registry / Connection Pool / Health Monitor and reconnect ordering (C3)

`internal_register` (src/server/http_server.py lines 351-395) sequences, in
source order: (1) `clear_stale_connection(client_id)` when the registration
payload carries a `client_id`; (2) `_health_monitor.reset_health(uuid,
client_id=client_id)` when a monitor is installed and the uuid is known; (3)
`await registry.register(registration)`.  The three callees live in
`server/mcp_server.py`, which is not part of the source tree, so their state
effects are modelled from the spec (§4.7, §4.8, §4.9). -/

/-- Generic first-match association-list lookup. -/
def alookup {α : Type} : List (String × α) → String → Option α
  | [], _ => none
  | (k', v) :: rest, k => if k' = k then some v else alookup rest k

/-- Current-session runtime facts of one client (spec §3, Client Connection). -/
structure Conn where
  client_id : String
  tunnel_port : Nat
  deriving Repr, DecidableEq

/-- The fields of the registration payload that `internal_register` reads:
`registration["identity"]["uuid"]` (default `"unknown"`),
`registration["client_info"]["client_id"]` (may be absent) and the
client-info installed as the new Connection. -/
structure Registration where
  uuid : String
  client_id : Option String
  conn : Conn
  deriving Repr, DecidableEq

/-- The server-side mutable state the reconnect path touches:
`registry` maps identity uuid to the live Connection (spec §4.7);
`pool` caches RPC connections, an entry keyed by the client_id of the
connection it was created through, holding the tunnel port it dials
(spec §4.8); `health` is the Health Monitor's per-uuid counters/grace state
and `monitor_conns` the monitor's own cached connections keyed by client_id
(spec §4.9). -/
structure ServerState where
  registry : List (String × Conn)
  pool : List (String × Nat)
  health : List (String × Nat)
  monitor_conns : List (String × Nat)
  deriving Repr, DecidableEq

/-- Modelled from the spec: `clear_stale_connection(client_id)`
(server/mcp_server.py, absent from src) — `Pool.clear_stale(client_id)`,
"called by the Registry at reconnect time to unconditionally evict" the
cached RPC connection keyed by that client_id (spec §4.8). -/
def clear_stale_connection (cid : String) (s : ServerState) : ServerState :=
  { s with pool := s.pool.filter (fun e => e.1 != cid) }

/-- Modelled from the spec: `HealthMonitor.reset_health(uuid, client_id)`
(server/mcp_server.py, absent from src) — "zeros counters, re-arms grace, and
clears any cached connection the monitor itself holds" (spec §4.9); clearing
the per-uuid state is modelled as dropping the entry. -/
def reset_health (u : String) (cid : Option String) (s : ServerState) : ServerState :=
  { s with
    health := s.health.filter (fun e => e.1 != u)
    monitor_conns :=
      match cid with
      | some c => s.monitor_conns.filter (fun e => e.1 != c)
      | none => s.monitor_conns }

/-- Modelled from the spec: `registry.register(registration)`
(server/mcp_server.py, absent from src) — installs the new Connection record,
"replacing any prior one for the same uuid" (spec §4.7, §3 invariant). -/
def registry_register (reg : Registration) (s : ServerState) : ServerState :=
  { s with registry := (reg.uuid, reg.conn) :: s.registry.filter (fun e => e.1 != reg.uuid) }

/-- The state after `internal_register`'s first two steps (source order:
clear stale connection, then reset health), i.e. just before
`registry.register` makes the new Connection observable. -/
def internal_register_pre (has_health_monitor : Bool) (reg : Registration)
    (s : ServerState) : ServerState :=
  let s1 :=
    match reg.client_id with
    | some cid => clear_stale_connection cid s
    | none => s
  if has_health_monitor && reg.uuid != "unknown" then
    reset_health reg.uuid reg.client_id s1
  else
    s1

/-- Embeds `internal_register` (src/server/http_server.py lines 351-395):
clear stale pool connection, reset health, then register. -/
def internal_register (has_health_monitor : Bool) (reg : Registration)
    (s : ServerState) : ServerState :=
  registry_register reg (internal_register_pre has_health_monitor reg s)

/-- Modelled from the spec: the tunnel port `describe_client(uuid)` reports,
i.e. the Registry's current Connection for the uuid (spec §4.7). -/
def describe_tunnel_port (s : ServerState) (u : String) : Option Nat :=
  (alookup s.registry u).map Conn.tunnel_port

/-- Modelled from the spec: the port an operator request for `u` is routed to.
`Pool.get(uuid)`: "if cached and the tunnel port matches the Registry's
current value, return it; otherwise close-and-replace" with a fresh
connection to the current port (spec §4.8). -/
def pool_route (s : ServerState) (u : String) : Option Nat :=
  match alookup s.registry u with
  | none => none
  | some c =>
      match alookup s.pool c.client_id with
      | some p => if p = c.tunnel_port then some p else some c.tunnel_port
      | none => some c.tunnel_port

/-! ## Protocol codec (C4)

`shared/protocol.py` is not part of the source tree (only its test suite
tests/test_protocol.py is).  `encode_message` / `decode_message` are modelled
from the spec §4.1 and the tests: every message is
`[u32 big-endian length][UTF-8 body of that length]`; decoding fails with
"Incomplete message header" below 4 bytes and "Incomplete message body" when
fewer than `length` body bytes follow; the remainder after one message is
returned.  Bytes are naturals < 256; UTF-8 encoding/decoding of the body is
abstracted as the `enc` / `dec` parameters. -/

/-- `struct.pack(">I", n)` as four big-endian bytes. -/
def be32 (n : Nat) : List Nat :=
  [n / 2 ^ 24 % 256, n / 2 ^ 16 % 256, n / 2 ^ 8 % 256, n % 256]

/-- `struct.unpack(">I", bytes([a, b, c, d]))`. -/
def read_be32 (a b c d : Nat) : Nat :=
  ((a * 256 + b) * 256 + c) * 256 + d

inductive DecodeErr where
  | incompleteHeader
  | incompleteBody
  deriving Repr, DecidableEq

/-- Modelled from the spec: `encode_message(msg)` — length prefix followed by
the encoded body. -/
def encode_message (enc : String → List Nat) (m : String) : List Nat :=
  be32 (enc m).length ++ enc m

/-- Modelled from the spec: `decode_message(data)` — returns the first
message and the remaining bytes, or the specific truncation failure. -/
def decode_message (dec : List Nat → String) (data : List Nat) :
    Except DecodeErr (String × List Nat) :=
  match data with
  | a :: b :: c :: d :: rest =>
      let len := read_be32 a b c d
      if rest.length < len then
        .error .incompleteBody
      else
        .ok (dec (rest.take len), rest.drop len)
  | _ => .error .incompleteHeader

/-! ## Wire message types and error codes (C5)

`Request` / `Response` and the error-code constants live in
`shared/protocol.py`, absent from src; modelled from the spec §4.1 and
tests/test_protocol.py (`TestRequest`, `TestResponse`, `TestErrorCodes`). -/

def ERR_METHOD_NOT_FOUND : Int := -32601
def ERR_INVALID_PARAMS : Int := -32602
def ERR_COMMAND_FAILED : Int := -32000
def ERR_PATH_DENIED : Int := -32001
def ERR_FILE_NOT_FOUND : Int := -32002

structure Request where
  method : String
  params : Obj
  id : Option String
  deriving DecidableEq

/-- Exactly one of `result` / `error` present; error is `(code, message)`. -/
structure Response where
  id : Option String
  result : Option Obj
  error : Option (Int × String)
  deriving DecidableEq

/-- `Response.success(result, id)`. -/
def Response.success (result : Obj) (id : Option String) : Response :=
  ⟨id, some result, none⟩

/-- `Response.error_response(code, message, id)`. -/
def Response.error_response (code : Int) (message : String) (id : Option String) : Response :=
  ⟨id, none, some (code, message)⟩

/-- The Python exceptions `Agent.handle_request`'s `except` clauses
distinguish.  `keyError` carries `str(e)` of the `KeyError`, which is the
`repr` of the missing key, i.e. the key in single quotes. -/
inductive PyExc where
  | permissionError (msg : String)
  | fileNotFoundError (msg : String)
  | keyError (key : String)
  | otherError (msg : String)
  deriving Repr, DecidableEq

/-- One handler = one `Agent._*` method: params in, result dict out, or a
raised exception. -/
def Handler : Type := Obj → Except PyExc Obj

/-- The agent's handler table.  `heartbeat`'s result is produced inline by
the dispatcher, matching the source. -/
structure Handlers where
  run_command : Handler
  read_file : Handler
  write_file : Handler
  list_files : Handler
  get_metrics : Handler
  ssh_session_open : Handler
  ssh_session_command : Handler
  ssh_session_close : Handler
  ssh_session_list : Handler

/-- The if/elif chain of `Agent.handle_request` on `request.method` (the
`METHOD_*` constants of shared/protocol.py, whose string values come from the
spec §4.1 method set and the tests); `heartbeat`'s inline result
`{"status": "alive"}` becomes a constant handler; the final `else` is
`none`. -/
def agent_dispatch (h : Handlers) (method : String) : Option Handler :=
  if method = "run_command" then some h.run_command
  else if method = "read_file" then some h.read_file
  else if method = "write_file" then some h.write_file
  else if method = "list_files" then some h.list_files
  else if method = "heartbeat" then some (fun _ => .ok [("status", .sStr "alive")])
  else if method = "get_metrics" then some h.get_metrics
  else if method = "ssh_session_open" then some h.ssh_session_open
  else if method = "ssh_session_command" then some h.ssh_session_command
  else if method = "ssh_session_close" then some h.ssh_session_close
  else if method = "ssh_session_list" then some h.ssh_session_list
  else none

/-- Embeds `Agent.handle_request` (src/client/agent.py lines 311-349): the
dispatch on `request.method`, the unknown-method branch, and the four
`except` clauses mapping raised exceptions to error responses. -/
def handle_request (h : Handlers) (request : Request) : Response :=
  match agent_dispatch h request.method with
  | none =>
      Response.error_response ERR_METHOD_NOT_FOUND
        ("Unknown method: " ++ request.method) request.id
  | some f =>
      match f request.params with
      | .ok result => Response.success result request.id
      | .error (.permissionError m) => Response.error_response ERR_PATH_DENIED m request.id
      | .error (.fileNotFoundError m) => Response.error_response ERR_FILE_NOT_FOUND m request.id
      | .error (.keyError k) =>
          Response.error_response ERR_INVALID_PARAMS
            ("Missing required parameter: '" ++ k ++ "'") request.id
      | .error (.otherError m) => Response.error_response ERR_COMMAND_FAILED m request.id

/-! ## run_command (C6) -/

/-- Outcome of `subprocess.run(cmd, shell=True, cwd=cwd, capture_output=True,
text=True, timeout=timeout)`: a completed process or `TimeoutExpired`. -/
inductive ExecResult where
  | completed (stdout stderr : String) (returncode : Int)
  | timedOut
  deriving Repr, DecidableEq

/-- Character-level join with a separator. -/
def joinChars (sep : Char) : List (List Char) → List Char
  | [] => []
  | [c] => c
  | c :: rest => c ++ sep :: joinChars sep rest

/-- `str(resolved)` of a component-list path in the POSIX model: a leading
slash followed by the slash-joined components. -/
def path_to_string (comps : List String) : String :=
  ⟨'/' :: joinChars '/' (comps.map String.data)⟩

/-- `timeout = params.get("timeout", 300)` in `Agent._run_command`. -/
def run_timeout (params : Obj) : Int :=
  match lookupField params "timeout" with
  | some (.sInt t) => t
  | _ => 300

/-- The `cwd` steps of `Agent._run_command`: `cwd = params.get("cwd")`, then
`if cwd: cwd = str(self._validate_path(cwd))` — a truthy cwd flows through
Path Policy and a rejection raises `PermissionError`. -/
def run_cwd (resolve : String → List String) (allowed_paths : Option (List String))
    (params : Obj) : Except PyExc (Option String) :=
  match lookupField params "cwd" with
  | some (.sStr c) =>
      if c ≠ "" then
        match validate_path resolve allowed_paths c with
        | .ok r => .ok (some (path_to_string r))
        | .error m => .error (.permissionError m)
      else
        .ok (some c)
  | _ => .ok none

/-- Embeds `Agent._run_command` (src/client/agent.py lines 351-382).  The
subprocess is abstracted as `ex : cmd → cwd → timeout → ExecResult`.  `cwd`,
when present and truthy, flows through `_validate_path`; `timeout` defaults
to 300; on `TimeoutExpired` the handler returns a *result* with empty stdout,
returncode -1 and the timeout message. -/
def run_command_handler (resolve : String → List String)
    (allowed_paths : Option (List String))
    (ex : String → Option String → Int → ExecResult) : Handler := fun params => do
  let cmd ← match lookupField params "cmd" with
    | some (.sStr c) => pure c
    | some _ => throw (.otherError "cmd is not a string")
    | none => throw (.keyError "cmd")
  let timeout := run_timeout params
  let cwd ← run_cwd resolve allowed_paths params
  match ex cmd cwd timeout with
  | .completed out err rc =>
      pure [("stdout", .sStr out), ("stderr", .sStr err), ("returncode", .sInt rc)]
  | .timedOut =>
      pure [("stdout", .sStr ""),
            ("stderr", .sStr ("Command timed out after " ++ toString timeout ++ " seconds")),
            ("returncode", .sInt (-1))]

/-! ## UTF-8 and Base64 codecs (C7, C9)

Executable models of CPython's strict `bytes.decode("utf-8")` /
`str.encode("utf-8")` and of `base64.b64encode` / `base64.b64decode`. -/

/-- `str.encode("utf-8")` for one character. -/
def utf8EncodeChar (c : Char) : List Nat :=
  let n := c.toNat
  if n < 0x80 then [n]
  else if n < 0x800 then [0xC0 + n / 64, 0x80 + n % 64]
  else if n < 0x10000 then [0xE0 + n / 4096, 0x80 + n / 64 % 64, 0x80 + n % 64]
  else [0xF0 + n / 262144, 0x80 + n / 4096 % 64, 0x80 + n / 64 % 64, 0x80 + n % 64]

/-- `str.encode("utf-8")`. -/
def utf8Encode (s : String) : List Nat :=
  (s.data.map utf8EncodeChar).flatten

/-- Decode one UTF-8 sequence from the head of the byte list: the scalar
value and the remaining bytes.  Strict: rejects stray continuation bytes,
overlong forms, surrogates and out-of-range values, as CPython's strict
`"utf-8"` codec does. -/
def utf8Step (bytes : List Nat) : Option (Nat × List Nat) :=
  match bytes with
  | [] => none
  | b :: rest =>
      if b < 0x80 then some (b, rest)
      else if b < 0xC2 then none
      else if b < 0xE0 then
        match rest with
        | b1 :: rest' =>
            if 0x80 ≤ b1 ∧ b1 < 0xC0 then
              some ((b - 0xC0) * 64 + (b1 - 0x80), rest')
            else none
        | [] => none
      else if b < 0xF0 then
        match rest with
        | b1 :: b2 :: rest' =>
            if 0x80 ≤ b1 ∧ b1 < 0xC0 ∧ 0x80 ≤ b2 ∧ b2 < 0xC0 then
              if (b - 0xE0) * 4096 + (b1 - 0x80) * 64 + (b2 - 0x80) < 0x800 ∨
                  (0xD800 ≤ (b - 0xE0) * 4096 + (b1 - 0x80) * 64 + (b2 - 0x80) ∧
                    (b - 0xE0) * 4096 + (b1 - 0x80) * 64 + (b2 - 0x80) < 0xE000) then
                none
              else
                some ((b - 0xE0) * 4096 + (b1 - 0x80) * 64 + (b2 - 0x80), rest')
            else none
        | _ => none
      else if b < 0xF5 then
        match rest with
        | b1 :: b2 :: b3 :: rest' =>
            if 0x80 ≤ b1 ∧ b1 < 0xC0 ∧ 0x80 ≤ b2 ∧ b2 < 0xC0 ∧ 0x80 ≤ b3 ∧ b3 < 0xC0 then
              if (b - 0xF0) * 262144 + (b1 - 0x80) * 4096 + (b2 - 0x80) * 64 + (b3 - 0x80) <
                    0x10000 ∨
                  0x110000 ≤
                    (b - 0xF0) * 262144 + (b1 - 0x80) * 4096 + (b2 - 0x80) * 64 + (b3 - 0x80) then
                none
              else
                some ((b - 0xF0) * 262144 + (b1 - 0x80) * 4096 + (b2 - 0x80) * 64 + (b3 - 0x80),
                  rest')
            else none
        | _ => none
      else none

/-- Iterated `utf8Step`; every step consumes at least one byte, so fuel equal
to the byte count decodes completely. -/
def utf8DecodeAux : Nat → List Nat → Option (List Char)
  | _, [] => some []
  | 0, _ :: _ => none
  | fuel + 1, bytes =>
      match utf8Step bytes with
      | some (n, rest') => (utf8DecodeAux fuel rest').map fun cs => Char.ofNat n :: cs
      | none => none

/-- `bytes.decode("utf-8")` (strict): `some` the decoded string or `none` for
`UnicodeDecodeError`. -/
def utf8Decode (bytes : List Nat) : Option String :=
  (utf8DecodeAux bytes.length bytes).map fun cs => ⟨cs⟩

/-- The Base64 alphabet. -/
def b64Chars : List Char :=
  "ABCDEFGHIJKLMNOPQRSTUVWXYZabcdefghijklmnopqrstuvwxyz0123456789+/".data

/-- Sextet value of a Base64 character. -/
def b64CharVal (c : Char) : Option Nat :=
  b64Chars.indexOf? c

/-- `base64.b64encode(bytes).decode("ascii")`. -/
def b64Encode : List Nat → String
  | [] => ""
  | [a] =>
      let n := a * 65536
      ⟨[b64Chars.getD (n / 262144) 'A', b64Chars.getD (n / 4096 % 64) 'A', '=', '=']⟩
  | [a, b] =>
      let n := a * 65536 + b * 256
      ⟨[b64Chars.getD (n / 262144) 'A', b64Chars.getD (n / 4096 % 64) 'A',
        b64Chars.getD (n / 64 % 64) 'A', '=']⟩
  | a :: b :: c :: rest =>
      let n := a * 65536 + b * 256 + c
      (⟨[b64Chars.getD (n / 262144) 'A', b64Chars.getD (n / 4096 % 64) 'A',
         b64Chars.getD (n / 64 % 64) 'A', b64Chars.getD (n % 64) 'A']⟩ : String)
      ++ b64Encode rest

/-- `base64.b64decode` over the character list: whole 4-character groups,
with `=` padding allowed in the final group only. -/
def b64DecodeList : List Char → Option (List Nat)
  | [] => some []
  | [a, b, '=', '='] => do
      let va ← b64CharVal a
      let vb ← b64CharVal b
      pure [va * 4 + vb / 16]
  | [a, b, c, '='] => do
      let va ← b64CharVal a
      let vb ← b64CharVal b
      let vc ← b64CharVal c
      pure [va * 4 + vb / 16, vb % 16 * 16 + vc / 4]
  | a :: b :: c :: d :: rest => do
      let va ← b64CharVal a
      let vb ← b64CharVal b
      let vc ← b64CharVal c
      let vd ← b64CharVal d
      let tail ← b64DecodeList rest
      pure ([va * 4 + vb / 16, vb % 16 * 16 + vc / 4, vc % 4 * 64 + vd] ++ tail)
  | _ => none

/-- `base64.b64decode(content)`: `none` for malformed input (raises in
Python, surfacing as a generic exception). -/
def b64Decode (s : String) : Option (List Nat) :=
  b64DecodeList s.data

/-! ## File read/write handlers (C7)

The agent's filesystem is modelled as a map from resolved path strings to
regular-file byte contents (the claims only exercise regular files; the
directory / non-file branches of the source raise `ValueError` →
`CommandFailed` and are untouched by the claims).  The requested encoding is
modelled for the source's default `"utf-8"` via the executable UTF-8 codec
above; `path.read_text` raising `UnicodeDecodeError` is `utf8Decode = none`. -/

def FileSystem : Type := List (String × List Nat)

instance : DecidableEq FileSystem := by
  unfold FileSystem
  infer_instance

/-- Overwrite-or-create a file (`path.write_text` / `path.write_bytes`). -/
def fs_write (fs : FileSystem) (path : String) (data : List Nat) : FileSystem :=
  (path, data) :: fs.filter (fun e => e.1 != path)

/-- Embeds `Agent._read_file` (src/client/agent.py lines 384-413): validate
the path, `FileNotFoundError` for missing files, reject files over 10 MiB,
decode as text, and on decode failure return the Base64 content with
`binary: true`. -/
def read_file_handler (resolve : String → List String)
    (allowed_paths : Option (List String)) (fs : FileSystem) : Handler := fun params => do
  let pathArg ← match lookupField params "path" with
    | some (.sStr p) => pure p
    | some _ => throw (.otherError "path is not a string")
    | none => throw (.keyError "path")
  let path ← match validate_path resolve allowed_paths pathArg with
    | .ok r => pure (path_to_string r)
    | .error m => throw (.permissionError m)
  match alookup fs path with
  | none => throw (.fileNotFoundError ("File not found: " ++ path))
  | some bytes =>
      let size : Int := bytes.length
      if size > 10 * 1024 * 1024 then
        throw (.otherError ("File too large: " ++ toString size ++ " bytes"))
      else
        match utf8Decode bytes with
        | some content =>
            pure [("content", .sStr content), ("size", .sInt size), ("path", .sStr path)]
        | none =>
            pure [("content", .sStr (b64Encode bytes)), ("size", .sInt size),
                  ("path", .sStr path), ("binary", .sBool true)]

/-- Embeds `Agent._write_file` (src/client/agent.py lines 415-433): validate
the path, Base64-decode when `binary` (default false), else encode the text
content; overwrite; report the written size.  Returns the result dict and
the updated filesystem. -/
def write_file_handler (resolve : String → List String)
    (allowed_paths : Option (List String)) (fs : FileSystem) (params : Obj) :
    Except PyExc (Obj × FileSystem) := do
  let pathArg ← match lookupField params "path" with
    | some (.sStr p) => pure p
    | some _ => throw (.otherError "path is not a string")
    | none => throw (.keyError "path")
  let path ← match validate_path resolve allowed_paths pathArg with
    | .ok r => pure (path_to_string r)
    | .error m => throw (.permissionError m)
  let content ← match lookupField params "content" with
    | some (.sStr c) => pure c
    | some _ => throw (.otherError "content is not a string")
    | none => throw (.keyError "content")
  let binary : Bool :=
    match lookupField params "binary" with
    | some (.sBool b) => b
    | _ => false
  let data ←
    if binary then
      match b64Decode content with
      | some d => pure d
      | none => throw (.otherError "Invalid base64-encoded string")
    else
      pure (utf8Encode content)
  let fs' := fs_write fs path data
  pure ([("path", .sStr path), ("size", .sInt data.length)], fs')

/-! ## File upload (C9)

Embeds `api_file_upload` (src/server/http_server.py lines 734-791) composed
with the agent write handler it ultimately drives.  The RPC hop
`conn.write_file(dest_path, text_content)` lives in `server/mcp_server.py`,
absent from src; it is modelled from the spec §4.1/§4.10 as issuing a
`write_file` request whose params are exactly the arguments the call site
passes: `path` and `content` — no `binary` and no `encoding` field. -/

def api_file_upload (resolve : String → List String)
    (allowed_paths : Option (List String)) (fs : FileSystem)
    (dest_path : String) (content : List Nat) :
    Except PyExc (Obj × FileSystem) :=
  let tb : String × Bool :=
    match utf8Decode content with
    | some t => (t, false)
    | none => (b64Encode content, true)
  match write_file_handler resolve allowed_paths fs
      [("path", .sStr dest_path), ("content", .sStr tb.1)] with
  | .ok (_, fs') =>
      .ok ([("path", .sStr dest_path), ("size", .sInt content.length),
            ("binary", .sBool tb.2)], fs')
  | .error e => .error e

/-! ## Command history store (C8) -/

structure CommandRecord where
  id : String
  client_uuid : String
  command : String
  cwd : Option String
  stdout : String
  stderr : String
  returncode : Int
  started_at : String
  completed_at : String
  duration_ms : Int
  user : String
  deriving Repr, DecidableEq

/-- The WHERE clause `CommandHistoryStore.list_for_client` builds
(src/server/command_history.py lines 218-232): client match, optional
`command LIKE %search%` (skipped for a falsy search string; SQLite LIKE is
abstracted as the `like` parameter), and the zero/non-zero returncode
filter. -/
def history_pred (client_uuid : String) (search : Option String)
    (like : String → String → Bool) (returncode_filter : Option Int)
    (r : CommandRecord) : Bool :=
  r.client_uuid == client_uuid
  && (match search with
      | some s => if s ≠ "" then like r.command s else true
      | none => true)
  && (match returncode_filter with
      | some f => if f = 0 then r.returncode == 0 else r.returncode != 0
      | none => true)

/-- `ORDER BY completed_at DESC` (ISO-8601 TEXT compares lexicographically
in SQLite). -/
def sort_by_completed_desc (l : List CommandRecord) : List CommandRecord :=
  l.mergeSort (fun a b => decide (b.completed_at ≤ a.completed_at))

/-- Embeds `CommandHistoryStore.list_for_client` (src/server/command_history.py
lines 193-275) over the table as a list of rows: `total` is `COUNT(*)` of the
matching rows, the records are the matching rows ordered by `completed_at
DESC` with `LIMIT ? OFFSET ?`. -/
def list_for_client (db : List CommandRecord) (client_uuid : String)
    (limit offset : Nat) (search : Option String)
    (like : String → String → Bool) (returncode_filter : Option Int) :
    List CommandRecord × Nat :=
  let matching := db.filter (history_pred client_uuid search like returncode_filter)
  let total := matching.length
  let records := ((sort_by_completed_desc matching).drop offset).take limit
  (records, total)

/-- The status → returncode_filter conversion in `api_command_history`
(src/server/http_server.py lines 470-475): `"success"` → `0`, `"failed"` →
`-1` (meaning non-zero), anything else → no filter. -/
def status_to_filter (status : Option String) : Option Int :=
  match status with
  | some s => if s = "success" then some 0 else if s = "failed" then some (-1) else none
  | none => none

/-- Embeds `api_command_history` (src/server/http_server.py lines 462-493):
converts the `status` query parameter and queries the store. -/
def api_command_history (db : List CommandRecord) (uuid : String)
    (limit offset : Nat) (search : Option String)
    (like : String → String → Bool) (status : Option String) :
    List CommandRecord × Nat :=
  list_for_client db uuid limit offset search like (status_to_filter status)

/-! ## History retention purge (C10) -/

/-- A calendar date (the fields of the `datetime` that `delete_old` uses). -/
structure Date where
  year : Int
  month : Nat
  day : Nat
  deriving Repr, DecidableEq

def is_leap_year (y : Int) : Bool :=
  (y % 4 == 0 && y % 100 != 0) || y % 400 == 0

def days_in_month (y : Int) (m : Nat) : Nat :=
  if m = 2 then (if is_leap_year y then 29 else 28)
  else if [4, 6, 9, 11].contains m then 30
  else 31

/-- `datetime.replace(day=d)`: raises `ValueError` unless
`1 ≤ d ≤ days_in_month`. -/
def date_replace_day (dt : Date) (d : Int) : Except String Date :=
  if 1 ≤ d ∧ d ≤ (days_in_month dt.year dt.month : Int) then
    .ok { dt with day := d.toNat }
  else
    .error "day is out of range for month"

def pad2 (n : Nat) : String :=
  if n < 10 then "0" ++ toString n else toString n

def pad4 (n : Int) : String :=
  if 0 ≤ n ∧ n < 10 then "000" ++ toString n
  else if 0 ≤ n ∧ n < 100 then "00" ++ toString n
  else if 0 ≤ n ∧ n < 1000 then "0" ++ toString n
  else toString n

/-- `datetime.isoformat()` of the UTC-midnight cutoff. -/
def iso_midnight (dt : Date) : String :=
  pad4 dt.year ++ "-" ++ pad2 dt.month ++ "-" ++ pad2 dt.day ++ "T00:00:00+00:00"

/-- Lexicographic (byte-wise) comparison of the two character sequences:
SQLite's memcmp ordering on the ASCII ISO-8601 timestamps in
`completed_at < ?`. -/
def chars_lt : List Char → List Char → Bool
  | [], [] => false
  | [], _ :: _ => true
  | _ :: _, [] => false
  | a :: as, b :: bs =>
      if a.toNat < b.toNat then true
      else if b.toNat < a.toNat then false
      else chars_lt as bs

/-- `a < b` on TEXT columns. -/
def str_lt (a b : String) : Bool :=
  chars_lt a.data b.data

/-- Embeds `CommandHistoryStore.delete_old` (src/server/command_history.py
lines 277-305): the cutoff is today's UTC midnight with
`.replace(day=cutoff.day - days)`; when that day is invalid the `ValueError`
propagates before the `DELETE` statement runs, so no row is deleted.  On
success returns the kept rows and the deleted count. -/
def delete_old (now : Date) (days : Int) (db : List CommandRecord) :
    Except String (List CommandRecord × Nat) :=
  match date_replace_day now ((now.day : Int) - days) with
  | .error e => .error e
  | .ok cutoff =>
      let cutoff_str := iso_midnight cutoff
      let kept := db.filter (fun r => !(str_lt r.completed_at cutoff_str))
      .ok (kept, db.length - kept.length)

/-! ## Witness fixtures -/

/-- Character-level split on a separator. -/
def splitChars (sep : Char) : List Char → List (List Char)
  | [] => [[]]
  | c :: rest =>
      if c = sep then [] :: splitChars sep rest
      else
        match splitChars sep rest with
        | [] => [[c]]
        | g :: gs => (c :: g) :: gs

/-- Plain POSIX component resolution used as a concrete `resolve` instance:
split on `/` and drop empty components (no symlinks, no `..` in the inputs
used). -/
def split_resolve (s : String) : List String :=
  ((splitChars '/' s.data).map fun cs => (⟨cs⟩ : String)).filter (fun c => c ≠ "")

/-- A degenerate LIKE used as a concrete `like` instance. -/
def like_always : String → String → Bool := fun _ _ => true

/-- A three-row history table used by concrete witnesses. -/
def db0 : List CommandRecord :=
  [⟨"r1", "U1", "echo hi", none, "hi\n", "", 0, "2024-01-01T00:00:00+00:00",
    "2024-01-01T00:00:01+00:00", 1000, "web"⟩,
   ⟨"r2", "U1", "false", none, "", "", 1, "2024-01-02T00:00:00+00:00",
    "2024-01-02T00:00:01+00:00", 1000, "web"⟩,
   ⟨"r3", "U2", "true", none, "", "", 0, "2024-01-03T00:00:00+00:00",
    "2024-01-03T00:00:01+00:00", 1000, "web"⟩]

/-! # Theorems -/

/-! ### Shared helper lemmas -/

theorem alookup_filter_ne {α : Type} (l : List (String × α)) (k : String) :
    alookup (l.filter (fun e => e.1 != k)) k = none := by
  induction l with
  | nil => rfl
  | cons hd tl ih =>
      by_cases h : hd.1 = k
      · simpa [List.filter_cons, h] using ih
      · have hb : (hd.1 != k) = true := by simpa [bne_iff_ne] using h
        simpa [List.filter_cons, hb, alookup, h] using ih

theorem alookup_cons_self {α : Type} (k : String) (v : α) (l : List (String × α)) :
    alookup ((k, v) :: l) k = some v := by
  simp [alookup]

theorem alookup_filter_ne_of_ne {α : Type} (l : List (String × α)) (k cid : String)
    (h : k ≠ cid) : alookup (l.filter (fun e => e.1 != cid)) k = alookup l k := by
  induction l with
  | nil => rfl
  | cons hd tl ih =>
      obtain ⟨k', v⟩ := hd
      by_cases hkc : k' = cid
      · subst hkc
        simp [List.filter_cons, alookup, Ne.symm h, ih]
      · have hb : (k' != cid) = true := by simpa [bne_iff_ne] using hkc
        by_cases hkk : k' = k <;> simp [List.filter_cons, alookup, hb, hkk, ih, h]

/-! ### C1 — Path Policy -/

/-- C1 counterexample: the claim says an empty (but non-null) allow-list
permits all resolved paths; in the code `if self.allowed_paths is not None`
also fires for `[]`, the loop over entries finds no match, and the path is
denied. -/
theorem validate_path_empty_allowlist_denies :
    validate_path (fun s => [s]) (some []) "/etc" =
      Except.error "Path not in allowed list: /etc" := rfl

/-- C1 (amended): `_validate_path` returns the resolved path when the
allow-list is null (`None`); with a non-null allow-list it returns the
resolved path when some entry's resolution is a component-prefix of (or equal
to) the resolved path, and otherwise fails with the PathDenied message; in
particular an empty but non-null allow-list denies every path. -/
theorem validate_path_policy (resolve : String → List String)
    (entries : List String) (path : String) :
    validate_path resolve none path = .ok (resolve path)
    ∧ ((∃ a ∈ entries, (resolve a).isPrefixOf (resolve path)) →
        validate_path resolve (some entries) path = .ok (resolve path))
    ∧ ((∀ a ∈ entries, ¬ (resolve a).isPrefixOf (resolve path)) →
        validate_path resolve (some entries) path =
          .error ("Path not in allowed list: " ++ path))
    ∧ validate_path resolve (some []) path =
        .error ("Path not in allowed list: " ++ path) := by
  refine ⟨rfl, ?_, ?_, rfl⟩
  · intro hex
    have h : entries.any (fun a => (resolve a).isPrefixOf (resolve path)) = true := by
      simpa [List.any_eq_true] using hex
    simp [validate_path, h]
  · intro hall
    have h : entries.any (fun a => (resolve a).isPrefixOf (resolve path)) = false := by
      simp only [List.any_eq_false]
      intro a ha
      simpa using hall a ha
    simp [validate_path, h]

/-- C1 witness: concrete instances of the amended policy — an allow-list
entry equal to the resolved path is permitted, a path outside the single
entry is denied. -/
theorem validate_path_policy_witness :
    validate_path (fun s => [s]) (some ["/srv"]) "/srv" = .ok ["/srv"]
    ∧ validate_path (fun s => [s]) (some ["/srv"]) "/etc" =
        .error "Path not in allowed list: /etc" :=
  ⟨(validate_path_policy (fun s => [s]) ["/srv"] "/srv").2.1 ⟨"/srv", by decide, by decide⟩,
   (validate_path_policy (fun s => [s]) ["/srv"] "/etc").2.2.1 (by decide)⟩

/-! ### C2 — Bearer-token authentication -/

/-- C2 counterexample: with a bearer token configured, an HTTP request to
`/clients` — which is not the health endpoint, not the client-registration
webhook, and not under any static-asset prefix — passes the middleware with
no credentials at all, because `/clients` is in `PUBLIC_PATHS`. -/
theorem auth_clients_path_is_public :
    auth_middleware (some "secret-key") .http "/clients" none none = .pass
    ∧ "/clients" ≠ "/health"
    ∧ "/clients" ≠ "/internal/register"
    ∧ (STATIC_PREFIXES.all fun p => !(str_starts_with p "/clients")) = true := by
  refine ⟨by decide, by decide, by decide, by decide⟩

/-- C2 (amended): when a non-empty bearer token is configured, the public
HTTP paths are exactly `/health`, `/clients` (the legacy client-list
endpoint), `/internal/register`, the SPA routes `/` and `/client`, and the
static-asset prefixes; every HTTP request to any other path without valid
credentials is rejected with 401; every WebSocket connect without valid
credentials (public or not) is closed with code 4001; valid credentials —
an `Authorization: Bearer <key>` header or a `token=<key>` query parameter —
always pass. -/
theorem auth_middleware_policy (k : String) (hk : k ≠ "") (path : String)
    (hdr tok : Option String) :
    (is_public_path path = false → check_auth (some k) hdr tok = false →
      auth_middleware (some k) .http path hdr tok = .reject401)
    ∧ (check_auth (some k) hdr tok = true →
      auth_middleware (some k) .http path hdr tok = .pass
      ∧ auth_middleware (some k) .websocket path hdr tok = .pass)
    ∧ (is_public_path path = true → auth_middleware (some k) .http path hdr tok = .pass)
    ∧ (check_auth (some k) hdr tok = false →
      auth_middleware (some k) .websocket path hdr tok = .close4001)
    ∧ (is_public_path path = true ↔
        (path = "/health" ∨ path = "/clients" ∨ path = "/internal/register" ∨
         path = "/" ∨ path = "/client" ∨ ∃ p ∈ STATIC_PREFIXES, str_starts_with p path))
    ∧ (check_auth (some k) hdr tok = true ↔
        ((∃ a, hdr = some a ∧ str_starts_with "Bearer " a ∧ str_drop a 7 = k) ∨
          tok = some k)) := by
  refine ⟨?_, ?_, ?_, ?_, ?_, ?_⟩
  · intro hpub hauth
    simp [auth_middleware, hk, hpub, hauth]
  · intro hauth
    constructor <;> simp [auth_middleware, hk, hauth]
  · intro hpub
    simp [auth_middleware, hpub]
  · intro hauth
    simp [auth_middleware, hk, hauth]
  · simp only [is_public_path, Bool.or_eq_true, List.any_eq_true, beq_iff_eq,
      PUBLIC_PATHS, List.mem_cons, List.not_mem_nil, or_false,
      exists_eq_or_imp, exists_eq_left]
    constructor
    · intro hpub
      tauto
    · intro hcases
      tauto
  · constructor
    · intro hauth
      rcases hdr with _ | a
      · simp only [check_auth, Option.getD_none] at hauth
        rcases Bool.or_eq_true_iff.mp hauth with hb | ht
        · rw [Bool.and_eq_true_iff] at hb
          exact absurd hb.1 (by decide)
        · right
          rcases tok with _ | t
          · simp at ht
          · simpa using ht
      · simp only [check_auth, Option.getD_some] at hauth
        rcases Bool.or_eq_true_iff.mp hauth with hb | ht
        · rcases Bool.and_eq_true_iff.mp hb with ⟨h1, h2⟩
          exact Or.inl ⟨a, rfl, h1, by simpa using h2⟩
        · right
          rcases tok with _ | t
          · simp at ht
          · simpa using ht
    · intro hcases
      rcases hcases with ⟨a, ha, h1, h2⟩ | ht
      · subst ha
        simp [check_auth, h1, h2]
      · subst ht
        simp [check_auth]

/-- C2 witness: concrete instances of the amended policy — a bare request to
a REST path is rejected with 401 and the same request over WebSocket is
closed with 4001, while the correct bearer header passes. -/
theorem auth_middleware_policy_witness :
    auth_middleware (some "secret") .http "/api/v1/clients" none none = .reject401
    ∧ auth_middleware (some "secret") .websocket "/api/v1/ws" none none = .close4001
    ∧ auth_middleware (some "secret") .http "/api/v1/clients"
        (some "Bearer secret") none = .pass :=
  ⟨(auth_middleware_policy "secret" (by decide) "/api/v1/clients" none none).1
      (by decide) (by decide),
   (auth_middleware_policy "secret" (by decide) "/api/v1/ws" none none).2.2.2.1 (by decide),
   ((auth_middleware_policy "secret" (by decide) "/api/v1/clients"
      (some "Bearer secret") none).2.1 (by decide)).1⟩

/-! ### C3 — Reconnect ordering -/

/-- C3 counterexample: a reconnect of uuid `U1` carrying a fresh per-process
client_id `c-new` (the prior connection's id is `c-old`): the source passes
the *payload's* client_id to `clear_stale_connection`, never the superseded
connection's, so after `internal_register` has installed the new Connection
(port 40777) and made it observable, the cached pool entry keyed by the
prior client_id `c-old` is still present — refuting "drops any cached RPC
connection keyed by the prior client_id ... strictly before the new
Connection record is installed". -/
theorem internal_register_fresh_id_counterexample :
    alookup [("U1", (⟨"c-old", 40001⟩ : Conn))] "U1" = some ⟨"c-old", 40001⟩
    ∧ ("c-new" : String) ≠ "c-old"
    ∧ describe_tunnel_port
        (internal_register true ⟨"U1", some "c-new", ⟨"c-new", 40777⟩⟩
          ⟨[("U1", ⟨"c-old", 40001⟩)], [("c-old", 40001)], [("U1", 2)], [("c-old", 40001)]⟩)
        "U1" = some 40777
    ∧ alookup
        (internal_register true ⟨"U1", some "c-new", ⟨"c-new", 40777⟩⟩
          ⟨[("U1", ⟨"c-old", 40001⟩)], [("c-old", 40001)], [("U1", 2)], [("c-old", 40001)]⟩).pool
        "c-old" = some 40001 := by decide

/-- C3 (amended): for every registration of an existing identity uuid (with
the health monitor installed), `internal_register` drops the cached RPC
connection keyed by the client_id *carried in the registration payload* —
which is the prior client_id exactly when the reconnecting agent reuses its
id — and clears the Health Monitor's state for the uuid, both strictly
before the new Connection is installed: in the intermediate state those
entries are already gone while the old Connection is still the one readers
observe, and the final state is exactly `registry.register` applied to that
intermediate state.  A reconnect carrying a fresh client_id leaves the pool
entry keyed by the prior client_id in place.  Even so, once the new
Connection is visible, operator requests are routed to the new tunnel port —
never to the old one when the port changed — because `Pool.get` re-checks
the Registry's current tunnel port. -/
theorem internal_register_payload_eviction (s : ServerState) (reg : Registration)
    (oldc : Conn)
    (hreg : alookup s.registry reg.uuid = some oldc)
    (huuid : reg.uuid ≠ "unknown") :
    (∀ cid, reg.client_id = some cid →
        alookup (internal_register_pre true reg s).pool cid = none
        ∧ alookup (internal_register true reg s).pool cid = none)
    ∧ alookup (internal_register_pre true reg s).health reg.uuid = none
    ∧ (internal_register_pre true reg s).registry = s.registry
    ∧ describe_tunnel_port (internal_register_pre true reg s) reg.uuid =
        some oldc.tunnel_port
    ∧ internal_register true reg s = registry_register reg (internal_register_pre true reg s)
    ∧ describe_tunnel_port (internal_register true reg s) reg.uuid =
        some reg.conn.tunnel_port
    ∧ pool_route (internal_register true reg s) reg.uuid = some reg.conn.tunnel_port
    ∧ (oldc.tunnel_port ≠ reg.conn.tunnel_port →
        pool_route (internal_register true reg s) reg.uuid ≠ some oldc.tunnel_port)
    ∧ (∀ cid, reg.client_id = some cid → oldc.client_id ≠ cid →
        alookup (internal_register true reg s).pool oldc.client_id =
          alookup s.pool oldc.client_id) := by
  have huuidb : (reg.uuid != "unknown") = true := by simpa [bne_iff_ne] using huuid
  have hpre_pool : ∀ cid, reg.client_id = some cid →
      (internal_register_pre true reg s).pool = s.pool.filter (fun e => e.1 != cid) := by
    intro cid hcid
    simp [internal_register_pre, hcid, huuidb, reset_health, clear_stale_connection]
  have hpre_health : (internal_register_pre true reg s).health =
      s.health.filter (fun e => e.1 != reg.uuid) := by
    cases hcid : reg.client_id <;>
      simp [internal_register_pre, hcid, huuidb, reset_health, clear_stale_connection]
  have hpre_reg : (internal_register_pre true reg s).registry = s.registry := by
    cases hcid : reg.client_id <;>
      simp [internal_register_pre, hcid, huuidb, reset_health, clear_stale_connection]
  have hfin_pool : (internal_register true reg s).pool =
      (internal_register_pre true reg s).pool := by
    simp [internal_register, registry_register]
  have hfinreg : alookup (internal_register true reg s).registry reg.uuid = some reg.conn := by
    simp [internal_register, registry_register, alookup]
  have hroute : pool_route (internal_register true reg s) reg.uuid =
      some reg.conn.tunnel_port := by
    unfold pool_route
    rw [hfinreg]
    dsimp only
    rcases hp : alookup (internal_register true reg s).pool reg.conn.client_id with _ | p
    · rfl
    · dsimp only
      by_cases hpe : p = reg.conn.tunnel_port
      · rw [if_pos hpe, hpe]
      · rw [if_neg hpe]
  refine ⟨?_, ?_, hpre_reg, ?_, rfl, ?_, hroute, ?_, ?_⟩
  · intro cid hcid
    have h1 : alookup (internal_register_pre true reg s).pool cid = none := by
      rw [hpre_pool cid hcid]
      exact alookup_filter_ne s.pool cid
    exact ⟨h1, by rw [hfin_pool]; exact h1⟩
  · rw [hpre_health]
    exact alookup_filter_ne s.health reg.uuid
  · unfold describe_tunnel_port
    rw [hpre_reg, hreg]
    rfl
  · unfold describe_tunnel_port
    rw [hfinreg]
    rfl
  · intro hne
    rw [hroute]
    intro hcontra
    exact hne (by simpa using hcontra.symm)
  · intro cid hcid hne
    rw [hfin_pool, hpre_pool cid hcid]
    exact alookup_filter_ne_of_ne s.pool oldc.client_id cid hne

/-- C3 witness: the same-process reconnect of uuid `U1` reusing client_id
`c-old` and moving from port 40001 to 40777: the payload's pool entry and
the health state are cleared before publication, and routing afterwards
targets 40777, never 40001. -/
theorem internal_register_payload_eviction_witness :
    alookup (internal_register_pre true ⟨"U1", some "c-old", ⟨"c-old", 40777⟩⟩
      ⟨[("U1", ⟨"c-old", 40001⟩)], [("c-old", 40001)], [("U1", 2)], [("c-old", 40001)]⟩).pool
      "c-old" = none
    ∧ pool_route (internal_register true ⟨"U1", some "c-old", ⟨"c-old", 40777⟩⟩
        ⟨[("U1", ⟨"c-old", 40001⟩)], [("c-old", 40001)], [("U1", 2)], [("c-old", 40001)]⟩)
        "U1" = some 40777
    ∧ pool_route (internal_register true ⟨"U1", some "c-old", ⟨"c-old", 40777⟩⟩
        ⟨[("U1", ⟨"c-old", 40001⟩)], [("c-old", 40001)], [("U1", 2)], [("c-old", 40001)]⟩)
        "U1" ≠ some 40001 :=
  have h := internal_register_payload_eviction
    ⟨[("U1", ⟨"c-old", 40001⟩)], [("c-old", 40001)], [("U1", 2)], [("c-old", 40001)]⟩
    ⟨"U1", some "c-old", ⟨"c-old", 40777⟩⟩ ⟨"c-old", 40001⟩
    (by decide) (by decide)
  ⟨(h.1 "c-old" rfl).1, h.2.2.2.2.2.2.1, h.2.2.2.2.2.2.2.1 (by decide)⟩

/-! ### C4 — Protocol codec -/

theorem read_be32_be32 (n : Nat) (h : n < 2 ^ 32) :
    read_be32 (n / 2 ^ 24 % 256) (n / 2 ^ 16 % 256) (n / 2 ^ 8 % 256) (n % 256) = n := by
  unfold read_be32
  omega

/-- C4: the length-prefixed codec round-trips — decoding an encoded message
yields the message with empty remainder; decoding the concatenation of two
encoded messages yields the first with the second's encoding as exact
remainder; a buffer shorter than 4 bytes fails with the incomplete-header
error and a buffer whose body is shorter than the declared length fails with
the incomplete-body error.  `enc`/`dec` abstract Python's UTF-8
`str.encode`/`bytes.decode`, assumed mutually inverse on the messages at
hand, and bodies are below the u32 range. -/
theorem protocol_codec_spec (enc : String → List Nat) (dec : List Nat → String)
    (m m1 m2 : String) (data : List Nat)
    (hm : dec (enc m) = m) (hlen : (enc m).length < 2 ^ 32)
    (hm1 : dec (enc m1) = m1) (hlen1 : (enc m1).length < 2 ^ 32) :
    decode_message dec (encode_message enc m) = .ok (m, [])
    ∧ decode_message dec (encode_message enc m1 ++ encode_message enc m2) =
        .ok (m1, encode_message enc m2)
    ∧ (data.length < 4 → decode_message dec data = .error .incompleteHeader)
    ∧ (∀ a b c d rest, data = a :: b :: c :: d :: rest →
        rest.length < read_be32 a b c d →
        decode_message dec data = .error .incompleteBody) := by
  refine ⟨?_, ?_, ?_, ?_⟩
  · show decode_message dec (be32 (enc m).length ++ enc m) = .ok (m, [])
    simp only [be32, List.cons_append, List.nil_append, decode_message,
      read_be32_be32 (enc m).length hlen]
    rw [if_neg (by omega)]
    simp [hm]
  · show decode_message dec ((be32 (enc m1).length ++ enc m1) ++ encode_message enc m2) =
      .ok (m1, encode_message enc m2)
    simp only [be32, List.cons_append, List.nil_append, List.append_assoc, decode_message,
      read_be32_be32 (enc m1).length hlen1]
    rw [if_neg (by simp)]
    rw [List.take_left, List.drop_left]
    rw [hm1]
  · intro hshort
    rcases data with _ | ⟨a, _ | ⟨b, _ | ⟨c, _ | ⟨d, rest⟩⟩⟩⟩ <;>
      first
        | rfl
        | (exfalso; simp at hshort; omega)
  · intro a b c d rest hdata hbody
    subst hdata
    simp [decode_message, hbody]

/-- C4 witness: concrete instances over the executable UTF-8 codec — a
message round-trips, two concatenated messages decode pairwise, a 2-byte
buffer is an incomplete header, and a 5-byte buffer declaring a 16-byte body
is an incomplete body. -/
theorem protocol_codec_spec_witness :
    decode_message (fun l => (utf8Decode l).getD "") (encode_message utf8Encode "hello") =
      .ok ("hello", [])
    ∧ decode_message (fun l => (utf8Decode l).getD "")
        (encode_message utf8Encode "first" ++ encode_message utf8Encode "second") =
      .ok ("first", encode_message utf8Encode "second")
    ∧ decode_message (fun l => (utf8Decode l).getD "") [0, 0] = .error .incompleteHeader
    ∧ decode_message (fun l => (utf8Decode l).getD "") [0, 0, 0, 16, 115] =
        .error .incompleteBody :=
  have h1 := protocol_codec_spec utf8Encode (fun l => (utf8Decode l).getD "")
    "hello" "first" "second" [0, 0] (by decide) (by decide) (by decide) (by decide)
  have h2 := protocol_codec_spec utf8Encode (fun l => (utf8Decode l).getD "")
    "hello" "first" "second" [0, 0, 0, 16, 115] (by decide) (by decide) (by decide) (by decide)
  ⟨h1.1, h1.2.1, h1.2.2.1 (by decide), h2.2.2.2 0 0 0 16 [115] rfl (by decide)⟩

/-! ### C5 — Dispatcher totality and error taxonomy -/

/-- C5: `handle_request` is total (a Lean function — every request yields a
`Response`, exceptions from handlers being data, not control flow), echoes
the request id, answers unknown methods with -32601 and the exact message,
and maps a handler's `PermissionError` to -32001, `FileNotFoundError` to
-32002, `KeyError` to -32602 with the missing-parameter message, any other
exception to -32000 carrying its message, and a normal result to a success
response; the dispatch table is defined exactly for the ten agent methods.
The dispatcher holds no mutable state, so each outcome leaves it able to
serve subsequent requests unchanged. -/
theorem handle_request_taxonomy (h : Handlers) (req : Request) (f : Handler) :
    ((handle_request h req).id = req.id)
    ∧ (agent_dispatch h req.method = none →
        handle_request h req =
          Response.error_response ERR_METHOD_NOT_FOUND
            ("Unknown method: " ++ req.method) req.id)
    ∧ (agent_dispatch h req.method = some f →
        ((∀ r, f req.params = .ok r →
            handle_request h req = Response.success r req.id)
        ∧ (∀ m, f req.params = .error (.permissionError m) →
            handle_request h req = Response.error_response ERR_PATH_DENIED m req.id)
        ∧ (∀ m, f req.params = .error (.fileNotFoundError m) →
            handle_request h req = Response.error_response ERR_FILE_NOT_FOUND m req.id)
        ∧ (∀ k, f req.params = .error (.keyError k) →
            handle_request h req =
              Response.error_response ERR_INVALID_PARAMS
                ("Missing required parameter: '" ++ k ++ "'") req.id)
        ∧ (∀ m, f req.params = .error (.otherError m) →
            handle_request h req = Response.error_response ERR_COMMAND_FAILED m req.id)))
    ∧ (agent_dispatch h req.method = none ↔
        req.method ∉ ["run_command", "read_file", "write_file", "list_files", "heartbeat",
          "get_metrics", "ssh_session_open", "ssh_session_command", "ssh_session_close",
          "ssh_session_list"]) := by
  refine ⟨?_, ?_, ?_, ?_⟩
  · unfold handle_request
    rcases hd : agent_dispatch h req.method with _ | f'
    · rfl
    · dsimp only
      rcases hf : f' req.params with ex | r
      · cases ex <;> rfl
      · rfl
  · intro hd
    unfold handle_request
    rw [hd]
  · intro hd
    refine ⟨?_, ?_, ?_, ?_, ?_⟩ <;> intro x hx <;> unfold handle_request <;> rw [hd] <;>
      dsimp only <;> rw [hx]
  · unfold agent_dispatch
    constructor
    · intro hd hmem
      simp only [List.mem_cons, List.not_mem_nil, or_false] at hmem
      rcases hmem with h1 | h1 | h1 | h1 | h1 | h1 | h1 | h1 | h1 | h1 <;> simp [h1] at hd
    · intro hmem
      simp only [List.mem_cons, List.not_mem_nil, or_false, not_or] at hmem
      obtain ⟨n1, n2, n3, n4, n5, n6, n7, n8, n9, n10⟩ := hmem
      simp [n1, n2, n3, n4, n5, n6, n7, n8, n9, n10]

/-- C5 witness: with handlers that raise each exception kind, concrete
requests produce exactly the matching error codes, and an unknown method
produces -32601. -/
theorem handle_request_taxonomy_witness :
    handle_request
      ⟨fun _ => .error (.permissionError "denied"), fun _ => .error (.fileNotFoundError "gone"),
       fun _ => .error (.keyError "content"), fun _ => .error (.otherError "boom"),
       fun _ => .ok [("ok", .sBool true)], fun _ => .ok [], fun _ => .ok [],
       fun _ => .ok [], fun _ => .ok []⟩
      ⟨"run_command", [], some "1"⟩ =
        Response.error_response (-32001) "denied" (some "1")
    ∧ handle_request
      ⟨fun _ => .error (.permissionError "denied"), fun _ => .error (.fileNotFoundError "gone"),
       fun _ => .error (.keyError "content"), fun _ => .error (.otherError "boom"),
       fun _ => .ok [("ok", .sBool true)], fun _ => .ok [], fun _ => .ok [],
       fun _ => .ok [], fun _ => .ok []⟩
      ⟨"write_file", [], some "2"⟩ =
        Response.error_response (-32602) "Missing required parameter: 'content'" (some "2")
    ∧ handle_request
      ⟨fun _ => .error (.permissionError "denied"), fun _ => .error (.fileNotFoundError "gone"),
       fun _ => .error (.keyError "content"), fun _ => .error (.otherError "boom"),
       fun _ => .ok [("ok", .sBool true)], fun _ => .ok [], fun _ => .ok [],
       fun _ => .ok [], fun _ => .ok []⟩
      ⟨"frobnicate", [], some "3"⟩ =
        Response.error_response (-32601) "Unknown method: frobnicate" (some "3") :=
  have hperm := (handle_request_taxonomy
    ⟨fun _ => .error (.permissionError "denied"), fun _ => .error (.fileNotFoundError "gone"),
     fun _ => .error (.keyError "content"), fun _ => .error (.otherError "boom"),
     fun _ => .ok [("ok", .sBool true)], fun _ => .ok [], fun _ => .ok [],
     fun _ => .ok [], fun _ => .ok []⟩
    ⟨"run_command", [], some "1"⟩
    (fun _ => .error (.permissionError "denied"))).2.2.1 rfl
  have hkey := (handle_request_taxonomy
    ⟨fun _ => .error (.permissionError "denied"), fun _ => .error (.fileNotFoundError "gone"),
     fun _ => .error (.keyError "content"), fun _ => .error (.otherError "boom"),
     fun _ => .ok [("ok", .sBool true)], fun _ => .ok [], fun _ => .ok [],
     fun _ => .ok [], fun _ => .ok []⟩
    ⟨"write_file", [], some "2"⟩
    (fun _ => .error (.keyError "content"))).2.2.1 rfl
  have hunk := (handle_request_taxonomy
    ⟨fun _ => .error (.permissionError "denied"), fun _ => .error (.fileNotFoundError "gone"),
     fun _ => .error (.keyError "content"), fun _ => .error (.otherError "boom"),
     fun _ => .ok [("ok", .sBool true)], fun _ => .ok [], fun _ => .ok [],
     fun _ => .ok [], fun _ => .ok []⟩
    ⟨"frobnicate", [], some "3"⟩
    (fun _ => .ok [])).2.1 rfl
  ⟨hperm.2.1 "denied" rfl, hkey.2.2.2.1 "content" rfl, hunk⟩

/-! ### C6 — run_command timeout -/

/-- C6: whenever the subprocess raises `TimeoutExpired` (with `cmd` the
requested command, the validated cwd, and the requested timeout, defaulting
to 300), `_run_command` returns a *result* — not an error — with returncode
-1, empty stdout, and stderr `"Command timed out after <N> seconds"` for the
requested timeout N; through the dispatcher this becomes a success
response. -/
theorem run_command_timeout (resolve : String → List String)
    (allowed_paths : Option (List String))
    (ex : String → Option String → Int → ExecResult)
    (params : Obj) (cmd : String) (cw : Option String) (rid : Option String)
    (hcmd : lookupField params "cmd" = some (.sStr cmd))
    (hcwd : run_cwd resolve allowed_paths params = .ok cw)
    (hex : ex cmd cw (run_timeout params) = .timedOut) :
    run_command_handler resolve allowed_paths ex params =
      .ok [("stdout", .sStr ""),
           ("stderr", .sStr ("Command timed out after " ++ toString (run_timeout params) ++
             " seconds")),
           ("returncode", .sInt (-1))]
    ∧ (∀ h : Handlers, h.run_command = run_command_handler resolve allowed_paths ex →
        handle_request h ⟨"run_command", params, rid⟩ =
          Response.success
            [("stdout", .sStr ""),
             ("stderr", .sStr ("Command timed out after " ++ toString (run_timeout params) ++
               " seconds")),
             ("returncode", .sInt (-1))] rid) := by
  have hmain : run_command_handler resolve allowed_paths ex params =
      .ok [("stdout", .sStr ""),
           ("stderr", .sStr ("Command timed out after " ++ toString (run_timeout params) ++
             " seconds")),
           ("returncode", .sInt (-1))] := by
    unfold run_command_handler
    rw [hcmd]
    dsimp only
    rw [hcwd]
    dsimp only [bind, Except.bind, pure, Except.pure]
    rw [hex]
  refine ⟨hmain, ?_⟩
  intro h hh
  unfold handle_request
  have hda : agent_dispatch h "run_command" = some h.run_command := rfl
  rw [hda]
  dsimp only
  rw [hh, hmain]

/-- C6 witness: the spec's literal scenario — `sleep 5` with timeout 1 on an
always-timing-out subprocess yields returncode -1, empty stdout and stderr
`"Command timed out after 1 seconds"` as a success response. -/
theorem run_command_timeout_witness :
    run_command_handler split_resolve none (fun _ _ _ => .timedOut)
      [("cmd", .sStr "sleep 5"), ("timeout", .sInt 1)] =
      .ok [("stdout", .sStr ""),
           ("stderr", .sStr "Command timed out after 1 seconds"),
           ("returncode", .sInt (-1))]
    ∧ handle_request
        ⟨run_command_handler split_resolve none (fun _ _ _ => .timedOut),
         fun _ => .ok [], fun _ => .ok [], fun _ => .ok [], fun _ => .ok [],
         fun _ => .ok [], fun _ => .ok [], fun _ => .ok [], fun _ => .ok []⟩
        ⟨"run_command", [("cmd", .sStr "sleep 5"), ("timeout", .sInt 1)], some "7"⟩ =
      Response.success
        [("stdout", .sStr ""),
         ("stderr", .sStr "Command timed out after 1 seconds"),
         ("returncode", .sInt (-1))] (some "7") :=
  have h := run_command_timeout split_resolve none (fun _ _ _ => .timedOut)
    [("cmd", .sStr "sleep 5"), ("timeout", .sInt 1)] "sleep 5" none (some "7")
    rfl rfl rfl
  ⟨h.1, h.2 _ rfl⟩

/-! ### C7 — Binary round-trip -/

/-- C7 counterexample: after `write_file` with `binary:true` and content
`"SGVsbG8="` (bytes `Hello`), `read_file` of the same path does *not* return
`binary:true` with `"SGVsbG8="`: the bytes `Hello` decode fine as UTF-8, so
the code returns plain text content `"Hello"` with no `binary` field. -/
theorem binary_roundtrip_counterexample :
    write_file_handler split_resolve none []
      [("path", .sStr "/tmp/f"), ("content", .sStr "SGVsbG8="), ("binary", .sBool true)] =
      .ok ([("path", .sStr "/tmp/f"), ("size", .sInt 5)],
           [("/tmp/f", [72, 101, 108, 108, 111])])
    ∧ read_file_handler split_resolve none [("/tmp/f", [72, 101, 108, 108, 111])]
        [("path", .sStr "/tmp/f")] =
      .ok [("content", .sStr "Hello"), ("size", .sInt 5), ("path", .sStr "/tmp/f")]
    ∧ lookupField [("content", .sStr "Hello"), ("size", .sInt 5), ("path", .sStr "/tmp/f")]
        "binary" = none
    ∧ ("Hello" : String) ≠ "SGVsbG8=" := by
  refine ⟨by decide, by decide, by decide, by decide⟩

/-- C7 (amended): `write_file` with `binary:true` stores the Base64-decoded
bytes; `read_file` returns `binary:true` with the Base64 content exactly when
decoding the stored bytes with the (default utf-8) encoding fails, and plain
text content without a `binary` field when decoding succeeds; hence writing
`"SGVsbG8="` as binary and reading back yields text `"Hello"`, not
`binary:true`. -/
theorem read_write_binary_policy (resolve : String → List String)
    (allowed_paths : Option (List String)) (fs : FileSystem)
    (parg key : String) (rc : List String) (bytes : List Nat)
    (hr : validate_path resolve allowed_paths parg = .ok rc)
    (hkey : path_to_string rc = key)
    (hfs : alookup fs key = some bytes)
    (hsize : (bytes.length : Int) ≤ 10 * 1024 * 1024) :
    (∀ c d, b64Decode c = some d →
      write_file_handler resolve allowed_paths fs
          [("path", .sStr parg), ("content", .sStr c), ("binary", .sBool true)] =
        .ok ([("path", .sStr key), ("size", .sInt d.length)], fs_write fs key d))
    ∧ (∀ t, utf8Decode bytes = some t →
      read_file_handler resolve allowed_paths fs [("path", .sStr parg)] =
        .ok [("content", .sStr t), ("size", .sInt bytes.length), ("path", .sStr key)])
    ∧ (utf8Decode bytes = none →
      read_file_handler resolve allowed_paths fs [("path", .sStr parg)] =
        .ok [("content", .sStr (b64Encode bytes)), ("size", .sInt bytes.length),
             ("path", .sStr key), ("binary", .sBool true)])
    ∧ (∀ c d t, b64Decode c = some d → utf8Decode d = some t →
        (d.length : Int) ≤ 10 * 1024 * 1024 →
      read_file_handler resolve allowed_paths (fs_write fs key d) [("path", .sStr parg)] =
        .ok [("content", .sStr t), ("size", .sInt d.length), ("path", .sStr key)]) := by
  have hwrite : ∀ c d, b64Decode c = some d →
      write_file_handler resolve allowed_paths fs
          [("path", .sStr parg), ("content", .sStr c), ("binary", .sBool true)] =
        .ok ([("path", .sStr key), ("size", .sInt d.length)], fs_write fs key d) := by
    intro c d hc
    simp [write_file_handler, lookupField, hr, hc, hkey, bind, Except.bind, pure, Except.pure]
  have hreadgen : ∀ fs2 : FileSystem, ∀ bytes2 : List Nat,
      alookup fs2 key = some bytes2 → (bytes2.length : Int) ≤ 10 * 1024 * 1024 →
      read_file_handler resolve allowed_paths fs2 [("path", .sStr parg)] =
        (match utf8Decode bytes2 with
        | some t =>
            .ok [("content", .sStr t), ("size", .sInt bytes2.length), ("path", .sStr key)]
        | none =>
            .ok [("content", .sStr (b64Encode bytes2)), ("size", .sInt bytes2.length),
                 ("path", .sStr key), ("binary", .sBool true)]) := by
    intro fs2 bytes2 hfs2 hsize2
    have hif : ¬((bytes2.length : Int) > 10 * 1024 * 1024) := by omega
    rcases hdec : utf8Decode bytes2 with _ | t <;>
      simp [read_file_handler, lookupField, hr, hkey, hfs2, hif, hdec,
        bind, Except.bind, pure, Except.pure] <;>
      omega
  refine ⟨hwrite, ?_, ?_, ?_⟩
  · intro t ht
    rw [hreadgen fs bytes hfs hsize, ht]
  · intro ht
    rw [hreadgen fs bytes hfs hsize, ht]
  · intro c d t hc hd hlen
    have hlook : alookup (fs_write fs key d) key = some d := by
      unfold fs_write
      exact alookup_cons_self key d _
    rw [hreadgen (fs_write fs key d) d hlook hlen, hd]

/-- C7 witness: the amended round-trip at the spec's literal input — writing
`"SGVsbG8="` as binary stores bytes `Hello`; reading that file back yields
text content `"Hello"` (UTF-8 decoding succeeded, so no binary flag). -/
theorem read_write_binary_policy_witness :
    write_file_handler split_resolve none [("/tmp/f", [0xFF])]
      [("path", .sStr "/tmp/f"), ("content", .sStr "SGVsbG8="), ("binary", .sBool true)] =
      .ok ([("path", .sStr "/tmp/f"), ("size", .sInt 5)],
           fs_write [("/tmp/f", [0xFF])] "/tmp/f" [72, 101, 108, 108, 111])
    ∧ read_file_handler split_resolve none
        (fs_write [("/tmp/f", [0xFF])] "/tmp/f" [72, 101, 108, 108, 111])
        [("path", .sStr "/tmp/f")] =
      .ok [("content", .sStr "Hello"), ("size", .sInt 5), ("path", .sStr "/tmp/f")]
    ∧ read_file_handler split_resolve none [("/tmp/g", [0xFF])] [("path", .sStr "/tmp/g")] =
      .ok [("content", .sStr "/w=="), ("size", .sInt 1), ("path", .sStr "/tmp/g"),
           ("binary", .sBool true)] :=
  have h := read_write_binary_policy split_resolve none [("/tmp/f", [0xFF])]
    "/tmp/f" "/tmp/f" ["tmp", "f"] [0xFF] rfl (by decide) (by decide) (by decide)
  have h2 := read_write_binary_policy split_resolve none [("/tmp/g", [0xFF])]
    "/tmp/g" "/tmp/g" ["tmp", "g"] [0xFF] rfl (by decide) (by decide) (by decide)
  ⟨h.1 "SGVsbG8=" [72, 101, 108, 108, 111] (by decide),
   h.2.2.2 "SGVsbG8=" [72, 101, 108, 108, 111] "Hello" (by decide) (by decide) (by decide),
   h2.2.2.1 (by decide)⟩

/-! ### C8 — History query filter and ordering -/

theorem mem_history_records (db : List CommandRecord) (uuid : String)
    (limit offset : Nat) (search : Option String) (like : String → String → Bool)
    (rcf : Option Int) (r : CommandRecord)
    (hmem : r ∈ (list_for_client db uuid limit offset search like rcf).1) :
    r ∈ db ∧ history_pred uuid search like rcf r = true := by
  have hmem' : r ∈ ((sort_by_completed_desc
      (db.filter (history_pred uuid search like rcf))).drop offset).take limit := hmem
  have h1 : r ∈ sort_by_completed_desc (db.filter (history_pred uuid search like rcf)) :=
    List.mem_of_mem_drop (List.mem_of_mem_take hmem')
  have h2 : r ∈ db.filter (history_pred uuid search like rcf) :=
    (List.mergeSort_perm _ _).mem_iff.mp h1
  exact List.mem_filter.mp h2

theorem history_records_sorted (l : List CommandRecord) (limit offset : Nat) :
    List.Pairwise (fun a b => b.completed_at ≤ a.completed_at)
      (((sort_by_completed_desc l).drop offset).take limit) := by
  have hs : List.Pairwise (fun a b => decide (b.completed_at ≤ a.completed_at) = true)
      (sort_by_completed_desc l) :=
    List.sorted_mergeSort
      (fun a b c hab hbc => by
        simp only [decide_eq_true_eq] at hab hbc ⊢
        exact le_trans hbc hab)
      (fun a b => by
        simp only [decide_eq_true_eq, Bool.or_eq_true]
        exact le_total b.completed_at a.completed_at)
      l
  have hs' : List.Pairwise (fun a b => b.completed_at ≤ a.completed_at)
      (sort_by_completed_desc l) :=
    hs.imp fun h => of_decide_eq_true h
  exact hs'.sublist ((List.take_sublist _ _).trans (List.drop_sublist _ _))

/-- C8: `status=success` yields only the client's records with returncode 0,
`status=failed` only those with non-zero returncode, and no status filter
only a client-match condition; in every case the returned page is ordered by
`completed_at` descending and the reported total is the count of *all* rows
matching the filter (not just the page); with no status filter, no search,
offset 0 and a limit at least the client's row count, every one of the
client's rows is returned. -/
theorem history_query_spec (db : List CommandRecord) (uuid : String)
    (limit offset : Nat) (search : Option String) (like : String → String → Bool) :
    (∀ r, r ∈ (api_command_history db uuid limit offset search like (some "success")).1 →
        r.client_uuid = uuid ∧ r.returncode = 0)
    ∧ (∀ r, r ∈ (api_command_history db uuid limit offset search like (some "failed")).1 →
        r.client_uuid = uuid ∧ r.returncode ≠ 0)
    ∧ (∀ r, r ∈ (api_command_history db uuid limit offset search like none).1 →
        r.client_uuid = uuid)
    ∧ (api_command_history db uuid limit offset search like (some "success")).2 =
        (db.filter (history_pred uuid search like (some 0))).length
    ∧ (api_command_history db uuid limit offset search like (some "failed")).2 =
        (db.filter (history_pred uuid search like (some (-1)))).length
    ∧ (api_command_history db uuid limit offset search like none).2 =
        (db.filter (history_pred uuid search like none)).length
    ∧ (∀ status, List.Pairwise (fun a b => b.completed_at ≤ a.completed_at)
        (api_command_history db uuid limit offset search like status).1)
    ∧ (search = none → offset = 0 →
        (db.filter (fun r => r.client_uuid == uuid)).length ≤ limit →
        ∀ r ∈ db, r.client_uuid = uuid →
          r ∈ (api_command_history db uuid limit offset search like none).1) := by
  have hpred0 : ∀ r : CommandRecord, history_pred uuid search like (some 0) r = true →
      r.client_uuid = uuid ∧ r.returncode = 0 := by
    intro r hp
    unfold history_pred at hp
    simp only [Bool.and_eq_true, beq_iff_eq] at hp
    refine ⟨hp.1.1, ?_⟩
    have := hp.2
    simpa using this
  have hpred1 : ∀ r : CommandRecord, history_pred uuid search like (some (-1)) r = true →
      r.client_uuid = uuid ∧ r.returncode ≠ 0 := by
    intro r hp
    unfold history_pred at hp
    simp only [Bool.and_eq_true, beq_iff_eq] at hp
    refine ⟨hp.1.1, ?_⟩
    have := hp.2
    rw [if_neg (by norm_num)] at this
    simpa [bne_iff_ne] using this
  have hprednone : ∀ r : CommandRecord, history_pred uuid search like none r = true →
      r.client_uuid = uuid := by
    intro r hp
    unfold history_pred at hp
    simp only [Bool.and_eq_true, beq_iff_eq] at hp
    exact hp.1.1
  refine ⟨?_, ?_, ?_, rfl, rfl, rfl, ?_, ?_⟩
  · intro r hmem
    exact hpred0 r (mem_history_records db uuid limit offset search like (some 0) r hmem).2
  · intro r hmem
    exact hpred1 r (mem_history_records db uuid limit offset search like (some (-1)) r hmem).2
  · intro r hmem
    exact hprednone r (mem_history_records db uuid limit offset search like none r hmem).2
  · intro status
    exact history_records_sorted _ limit offset
  · intro hsearch hoffset hlen r hr hruuid
    subst hsearch
    subst hoffset
    have hpredeq : history_pred uuid none like none = fun r => r.client_uuid == uuid := by
      funext r
      unfold history_pred
      simp
    show r ∈ ((sort_by_completed_desc
      (db.filter (history_pred uuid none like none))).drop 0).take limit
    unfold sort_by_completed_desc
    rw [List.drop_zero, List.take_of_length_le]
    · rw [(List.mergeSort_perm _ _).mem_iff]
      rw [hpredeq]
      exact List.mem_filter.mpr ⟨hr, by simpa using hruuid⟩
    · calc ((db.filter (history_pred uuid none like none)).mergeSort
            (fun a b => decide (b.completed_at ≤ a.completed_at))).length
          = (db.filter (history_pred uuid none like none)).length :=
            (List.mergeSort_perm _ _).length_eq
        _ ≤ limit := by rw [hpredeq]; exact hlen

/-- C8 witness: on the three-row fixture, `status=success` returns only U1's
returncode-0 row, `status=failed` only the non-zero row, and the default
query returns both of U1's rows with total 2, newest first. -/
theorem history_query_spec_witness :
    ((⟨"r1", "U1", "echo hi", none, "hi\n", "", 0, "2024-01-01T00:00:00+00:00",
        "2024-01-01T00:00:01+00:00", 1000, "web"⟩ : CommandRecord) ∈
      (api_command_history db0 "U1" 50 0 none like_always none).1 →
        (⟨"r1", "U1", "echo hi", none, "hi\n", "", 0, "2024-01-01T00:00:00+00:00",
          "2024-01-01T00:00:01+00:00", 1000, "web"⟩ : CommandRecord).client_uuid = "U1")
    ∧ (api_command_history db0 "U1" 50 0 none like_always (some "success")).2 = 1
    ∧ (api_command_history db0 "U1" 50 0 none like_always (some "failed")).2 = 1
    ∧ (api_command_history db0 "U1" 50 0 none like_always none).2 = 2 :=
  have h := history_query_spec db0 "U1" 50 0 none like_always
  ⟨fun hmem => (h.2.2.1 _ hmem),
   h.2.2.2.1.trans (by decide),
   h.2.2.2.2.1.trans (by decide),
   h.2.2.2.2.2.1.trans (by decide)⟩

/-! ### UTF-8 round trip (helper for C9) -/

theorem char_toNat_ofNat (n : Nat) (h : n.isValidChar) : (Char.ofNat n).toNat = n := by
  rw [Char.ofNat, dif_pos h]
  rfl

theorem utf8EncodeChar_one (b : Nat) (h : b < 0x80) :
    utf8EncodeChar (Char.ofNat b) = [b] := by
  unfold utf8EncodeChar
  rw [char_toNat_ofNat b (Or.inl (by omega))]
  rw [if_pos h]

theorem utf8EncodeChar_two (n : Nat) (h1 : 0x80 ≤ n) (h2 : n < 0x800) :
    utf8EncodeChar (Char.ofNat n) = [0xC0 + n / 64, 0x80 + n % 64] := by
  unfold utf8EncodeChar
  rw [char_toNat_ofNat n (Or.inl (by omega))]
  rw [if_neg (by omega), if_pos h2]

theorem utf8EncodeChar_three (n : Nat) (h1 : 0x800 ≤ n) (h2 : n < 0x10000)
    (hv : n.isValidChar) :
    utf8EncodeChar (Char.ofNat n) = [0xE0 + n / 4096, 0x80 + n / 64 % 64, 0x80 + n % 64] := by
  unfold utf8EncodeChar
  rw [char_toNat_ofNat n hv]
  rw [if_neg (by omega), if_neg (by omega), if_pos h2]

theorem utf8EncodeChar_four (n : Nat) (h1 : 0x10000 ≤ n) (h2 : n < 0x110000) :
    utf8EncodeChar (Char.ofNat n) =
      [0xF0 + n / 262144, 0x80 + n / 4096 % 64, 0x80 + n / 64 % 64, 0x80 + n % 64] := by
  unfold utf8EncodeChar
  rw [char_toNat_ofNat n (Or.inr ⟨by omega, by omega⟩)]
  rw [if_neg (by omega), if_neg (by omega), if_neg (by omega)]

set_option maxRecDepth 8192 in
/-- One decode step inverts encoding: the character's UTF-8 bytes followed
by the remaining bytes reproduce the input, and at least one byte is
consumed. -/
theorem utf8Step_spec (bytes : List Nat) (n : Nat) (rest' : List Nat)
    (h : utf8Step bytes = some (n, rest')) :
    utf8EncodeChar (Char.ofNat n) ++ rest' = bytes ∧ rest'.length < bytes.length := by
  delta utf8Step at h
  repeat' split at h
  all_goals try exact Option.noConfusion h
  all_goals
    simp only [Option.some.injEq, Prod.mk.injEq] at h
  all_goals
    obtain ⟨rfl, rfl⟩ := h
  · rw [utf8EncodeChar_one _ (by omega)]
    exact ⟨rfl, by simp⟩
  · rw [utf8EncodeChar_two _ (by omega) (by omega)]
    simp only [List.cons_append, List.nil_append, List.cons.injEq, List.length_cons]
    refine ⟨⟨by omega, by omega, trivial⟩, by omega⟩
  · rw [utf8EncodeChar_three _ (by omega) (by omega) (by unfold Nat.isValidChar; omega)]
    simp only [List.cons_append, List.nil_append, List.cons.injEq, List.length_cons]
    refine ⟨⟨by omega, by omega, by omega, trivial⟩, by omega⟩
  · rw [utf8EncodeChar_four _ (by omega) (by omega)]
    simp only [List.cons_append, List.nil_append, List.cons.injEq, List.length_cons]
    refine ⟨⟨by omega, by omega, by omega, by omega, trivial⟩, by omega⟩

/-- Iterated decoding inverts encoding: re-encoding the decoded characters
reproduces the original bytes. -/
theorem utf8DecodeAux_flatten (fuel : Nat) :
    ∀ (bytes : List Nat) (cs : List Char),
      utf8DecodeAux fuel bytes = some cs → (cs.map utf8EncodeChar).flatten = bytes := by
  induction fuel with
  | zero =>
      intro bytes cs h
      cases bytes with
      | nil =>
          obtain rfl := Option.some.inj h
          rfl
      | cons b rest => exact Option.noConfusion h
  | succ fuel ih =>
      intro bytes cs h
      cases bytes with
      | nil =>
          obtain rfl := Option.some.inj h
          rfl
      | cons b rest =>
          have h' : (match utf8Step (b :: rest) with
              | some (n, rest') => (utf8DecodeAux fuel rest').map fun cs => Char.ofNat n :: cs
              | none => none) = some cs := h
          rcases hstep : utf8Step (b :: rest) with _ | ⟨n, rest2⟩ <;> rw [hstep] at h'
          · exact Option.noConfusion h'
          · dsimp only at h'
            rcases haux : utf8DecodeAux fuel rest2 with _ | cs' <;> rw [haux] at h'
            · exact Option.noConfusion h'
            · obtain rfl := Option.some.inj h'
              simp only [List.map_cons, List.flatten_cons]
              rw [ih rest2 cs' haux]
              exact (utf8Step_spec (b :: rest) n rest2 hstep).1

/-- Decoding a byte list to a string and re-encoding reproduces the bytes. -/
theorem utf8Encode_utf8Decode (bytes : List Nat) (t : String)
    (h : utf8Decode bytes = some t) : utf8Encode t = bytes := by
  unfold utf8Decode at h
  rcases hl : utf8DecodeAux bytes.length bytes with _ | cs <;> rw [hl] at h
  · exact Option.noConfusion h
  · obtain rfl := Option.some.inj h
    exact utf8DecodeAux_flatten bytes.length bytes cs hl

/-! ### C9 — File upload never writes in binary mode -/

/-- C9: `api_file_upload` sends the agent a `write_file` request with no
binary flag: when the uploaded bytes are valid UTF-8 the decoded text is
re-encoded and the stored file equals the upload; when they are not, the
*Base64 text* of the bytes is encoded and stored, so the file holds the
Base64 characters rather than the original bytes (the response still reports
`binary: true`). -/
theorem upload_never_binary (resolve : String → List String)
    (allowed_paths : Option (List String)) (fs : FileSystem)
    (dest key : String) (rc : List String) (content : List Nat)
    (hr : validate_path resolve allowed_paths dest = .ok rc)
    (hkey : path_to_string rc = key) :
    (∀ t, utf8Decode content = some t →
      api_file_upload resolve allowed_paths fs dest content =
        .ok ([("path", .sStr dest), ("size", .sInt content.length), ("binary", .sBool false)],
             fs_write fs key content))
    ∧ (utf8Decode content = none →
      api_file_upload resolve allowed_paths fs dest content =
        .ok ([("path", .sStr dest), ("size", .sInt content.length), ("binary", .sBool true)],
             fs_write fs key (utf8Encode (b64Encode content)))) := by
  have hw : ∀ c : String,
      write_file_handler resolve allowed_paths fs
          [("path", .sStr dest), ("content", .sStr c)] =
        .ok ([("path", .sStr key), ("size", .sInt (utf8Encode c).length)],
             fs_write fs key (utf8Encode c)) := by
    intro c
    simp [write_file_handler, lookupField, hr, hkey, bind, Except.bind, pure, Except.pure]
  constructor
  · intro t ht
    unfold api_file_upload
    rw [ht]
    dsimp only
    rw [hw t, utf8Encode_utf8Decode content t ht]
  · intro ht
    unfold api_file_upload
    rw [ht]
    dsimp only
    rw [hw (b64Encode content)]

/-- C9 witness: uploading the single byte 0xFF (not UTF-8) stores the four
Base64 characters `/w==`, not the original byte, while uploading the UTF-8
bytes of `"hi"` stores them byte-identically. -/
theorem upload_never_binary_witness :
    api_file_upload split_resolve none [] "/tmp/u" [0xFF] =
      .ok ([("path", .sStr "/tmp/u"), ("size", .sInt 1), ("binary", .sBool true)],
           fs_write [] "/tmp/u" [47, 119, 61, 61])
    ∧ ([47, 119, 61, 61] : List Nat) ≠ [0xFF]
    ∧ api_file_upload split_resolve none [] "/tmp/u" [104, 105] =
      .ok ([("path", .sStr "/tmp/u"), ("size", .sInt 2), ("binary", .sBool false)],
           fs_write [] "/tmp/u" [104, 105]) :=
  have h := upload_never_binary split_resolve none [] "/tmp/u" "/tmp/u" ["tmp", "u"]
    [0xFF] rfl (by decide)
  have h2 := upload_never_binary split_resolve none [] "/tmp/u" "/tmp/u" ["tmp", "u"]
    [104, 105] rfl (by decide)
  ⟨(h.2 (by decide)).trans (by decide), by decide, (h2.1 "hi" (by decide)).trans (by decide)⟩

/-! ### C10 — History retention purge is partial -/

/-- C10: `delete_old` computes the cutoff by `replace(day=cutoff.day - days)`;
whenever `days` is at least today's day of month the resulting day is below 1,
`datetime.replace` raises `ValueError`, and the call fails before the DELETE
runs — no row is deleted; the call can only succeed when `days` is strictly
less than today's day of month. -/
theorem delete_old_day_gate (now : Date) (days : Int) (db : List CommandRecord) :
    ((now.day : Int) ≤ days →
      delete_old now days db = .error "day is out of range for month")
    ∧ (∀ res, delete_old now days db = .ok res → days < (now.day : Int)) := by
  constructor
  · intro h
    unfold delete_old date_replace_day
    rw [if_neg (by omega)]
  · intro res hok
    unfold delete_old date_replace_day at hok
    by_contra hlt
    push_neg at hlt
    rw [if_neg (by omega)] at hok
    simp at hok

/-- C10 witness: on 2026-10-12, a 30-day retention purge raises `ValueError`
(30 ≥ 12), while a successful 5-day purge witnesses `days < 12`. -/
theorem delete_old_day_gate_witness :
    delete_old ⟨2026, 10, 12⟩ 30 db0 = .error "day is out of range for month"
    ∧ (5 : Int) < (12 : Int) :=
  ⟨(delete_old_day_gate ⟨2026, 10, 12⟩ 30 db0).1 (by decide),
   (delete_old_day_gate ⟨2026, 10, 12⟩ 5 db0).2 ([], 3) (by decide)⟩

end EtPhoneHome
